import Mathlib

/-!
Verification of the restaurant chatbot server (`src/server.js`).

The server is embedded shallowly:
* JS strings are Lean `String`s (sequences of characters); the JS string
  methods used by the code (`toLowerCase`, `trim`, `includes`) are embedded
  as `jsToLowerCase`, `jsTrim`, `jsIncludes`.  JS truthiness of a
  possibly-absent string field is `jsTruthy`.
* The menu table declared in `getMenuTool.func` is the association list
  `menus`, but JS bracket access on an object literal also consults the
  prototype chain, so `menus[k]` is embedded as `menusGet`, of type
  `JsValue`: an own string property, an inherited `Object.prototype`
  function or the prototype object, or `undefined`.  JS `x || y` on such
  values is `jsOrValue`.  The tool function itself is `getMenuFunc`.
* The `POST /api/chat` handler is `handleChat`.  The external agent
  executor's behaviour at one request is an explicit parameter of type
  `AgentOutcome`: either it throws (`err` with the thrown error message) or
  it returns an `AgentResult` with the possibly-absent fields `output` and
  `intermediateSteps`, as in the source.  The HTTP response is a
  `HandlerResult`: status code, JSON body as a field list, whether the
  executor was invoked before responding, and what `console.error` logged.
-/

namespace ChatServer

/-- Embedding of JS `String.prototype.toLowerCase` (ASCII letters). -/
def jsToLowerCase (s : String) : String :=
  String.mk (s.toList.map Char.toLower)

/-- Trimming of a character sequence: drop whitespace from both ends. -/
def jsTrimList (l : List Char) : List Char :=
  ((l.dropWhile Char.isWhitespace).reverse.dropWhile Char.isWhitespace).reverse

/-- Embedding of JS `String.prototype.trim`. -/
def jsTrim (s : String) : String :=
  String.mk (jsTrimList s.toList)

/-- Embedding of JS `String.prototype.includes`: contiguous-substring test. -/
def jsIncludes (s pat : String) : Bool :=
  decide (pat.toList <:+: s.toList)

/-- JS truthiness of a possibly-absent string field: an absent field and the
empty string are falsy, every other string is truthy. -/
def jsTruthy : Option String → Bool
  | none => false
  | some s => !(s == "")

/-- A JS value that can come out of bracket access on the menu object
literal: one of its own string properties, a function inherited from
`Object.prototype` (carrying the property name), the prototype object
itself (what the inherited `__proto__` accessor yields), or `undefined`. -/
inductive JsValue where
  | str (s : String)
  | builtinFunction (name : String)
  | prototypeObject
  | undefined
deriving DecidableEq

/-- JS truthiness of such a value: `undefined` and the empty string are
falsy; every other string, every function and every object is truthy. -/
def jsTruthyValue : JsValue → Bool
  | .str s => !(s == "")
  | .builtinFunction _ => true
  | .prototypeObject => true
  | .undefined => false

/-- JS `x || y`: returns `y` exactly when `x` is falsy. -/
def jsOrValue (v d : JsValue) : JsValue :=
  if jsTruthyValue v then v else d

/-- The `menus` object literal inside `getMenuTool.func` in `src/server.js`. -/
def menus : List (String × String) :=
  [("breakfast", "Paratha, Tea, Fruits, Bread with Butter"),
   ("lunch", "Rice, Dal, Curry, Roti, Salad"),
   ("evening", "Samosa, Chutney, Tea, Biscuits"),
   ("evening snacks", "Samosa, Chutney, Tea, Biscuits"),
   ("dinner", "Biryani, Raita, Papad, Salad")]

/-- The fallback string of `getMenuTool.func`. -/
def menuFallbackMessage : String :=
  "Sorry, we couldn\x27t find the menu for that category. Available categories: breakfast, lunch, evening snacks, dinner"

/-- The property names a plain object literal inherits from
`Object.prototype` as function-valued data properties. -/
def objectPrototypeKeys : List String :=
  ["constructor", "hasOwnProperty", "isPrototypeOf", "propertyIsEnumerable",
   "toLocaleString", "toString", "valueOf",
   "__defineGetter__", "__defineSetter__", "__lookupGetter__", "__lookupSetter__"]

/-- What bracket access finds on `Object.prototype` for a key that is not an
own property: the `__proto__` accessor yields the prototype object, the
builtin methods and `constructor` yield functions, anything else is
`undefined`. -/
def objectPrototypeGet (k : String) : JsValue :=
  if k == "__proto__" then .prototypeObject
  else if objectPrototypeKeys.contains k then .builtinFunction k
  else .undefined

/-- JS bracket access `menus[k]`: an own property of the object literal if
there is one, otherwise whatever the prototype chain provides. -/
def menusGet (k : String) : JsValue :=
  match menus.lookup k with
  | some v => .str v
  | none => objectPrototypeGet k

/-- Whether a JS value is a string. -/
def isStringValue : JsValue → Bool
  | .str _ => true
  | _ => false

/-- Embedding of `getMenuTool.func` from `src/server.js`: lowercase and trim
the category, force-map anything containing "evening" or "snack" to the
"evening" entry, otherwise bracket access on the object literal (prototype
chain included) with the fallback string when the access is falsy. -/
def getMenuFunc (category : String) : JsValue :=
  let normalizedCategory := jsTrim (jsToLowerCase category)
  if jsIncludes normalizedCategory "evening" || jsIncludes normalizedCategory "snack" then
    menusGet "evening"
  else
    jsOrValue (menusGet normalizedCategory) (.str menuFallbackMessage)

/-- One recorded intermediate step of the agent executor; its `observation`
field may be absent. -/
structure AgentStep where
  observation : Option String
deriving DecidableEq

/-- The result object returned by `executor.invoke`; both fields may be
absent. -/
structure AgentResult where
  output : Option String
  intermediateSteps : Option (List AgentStep)
deriving DecidableEq

/-- The behaviour of the agent executor on one request: it either returns a
result or throws with some error message. -/
inductive AgentOutcome where
  | ok (response : AgentResult)
  | err (e : String)
deriving DecidableEq

/-- The observable outcome of one `POST /api/chat` request: HTTP status,
JSON body as a list of (field, string value) pairs, whether
`executor.invoke` was reached, and what `console.error` logged. -/
structure HandlerResult where
  status : Nat
  body : List (String × String)
  agentInvoked : Bool
  errorLog : Option String
deriving DecidableEq

/-- The 400 message of the validation branch. -/
def invalidInputMessage : String := "Please provide a valid input."

/-- The 500 message of the catch branch. -/
def upstreamErrorMessage : String :=
  "Sorry, something went wrong. Please try again with a specific menu request."

/-- The 500 message of the final fallback branch. -/
def couldNotProcessMessage : String :=
  "I couldn\x27t process your request. Please try asking for a specific menu like \x27breakfast menu\x27 or \x27evening snacks menu\x27."

/-- The sentinel substring the handler looks for in `response.output`. -/
def maxIterationsSentinel : String := "agent stopped due to max iterations"

/-- The validation test `!userInput || userInput.trim() === ""` with a
possibly-absent string input. -/
def isInvalidInput : Option String → Bool
  | none => true
  | some s => s == "" || jsTrim s == ""

/-- The final-fallback 500 response of the handler. -/
def finalFallbackResult : HandlerResult :=
  ⟨500, [("output", couldNotProcessMessage)], true, none⟩

/-- Embedding of the result-interpretation part of the `/api/chat` handler
(after `executor.invoke` returned `response`). -/
def interpretAgentResult (response : AgentResult) : HandlerResult :=
  if jsTruthy response.output && !(jsIncludes (response.output.getD "") maxIterationsSentinel) then
    ⟨200, [("output", response.output.getD "")], true, none⟩
  else
    match response.intermediateSteps with
    | some steps =>
      if steps.length > 0 then
        match steps.getLast? with
        | some lastStep =>
          if jsTruthy lastStep.observation then
            ⟨200, [("output", lastStep.observation.getD "")], true, none⟩
          else
            finalFallbackResult
        | none => finalFallbackResult
      else
        finalFallbackResult
    | none => finalFallbackResult

/-- Embedding of the `POST /api/chat` handler of `src/server.js`, with the
agent executor's behaviour as an explicit parameter. -/
def handleChat (input : Option String) (agent : AgentOutcome) : HandlerResult :=
  if isInvalidInput input then
    ⟨400, [("output", invalidInputMessage)], false, none⟩
  else
    match agent with
    | .err e => ⟨500, [("output", upstreamErrorMessage)], true, some e⟩
    | .ok response => interpretAgentResult response


theorem infix_dropWhile_of_forall (p : Char → Bool) {pat : List Char}
    (hp : ∀ c ∈ pat, p c = false) :
    ∀ {l : List Char}, pat <:+: l → pat <:+: l.dropWhile p := by
  intro l
  induction l with
  | nil => intro h; simpa using h
  | cons a t ih =>
    intro h
    by_cases ha : p a = true
    · rw [List.dropWhile_cons, if_pos ha]
      rcases List.infix_cons_iff.mp h with hpre | hinf
      · cases pat with
        | nil => exact List.nil_infix
        | cons b bs =>
          rcases hpre with ⟨r, hr⟩
          have hb : b = a := by
            have := congrArg (List.head? ·) hr
            simpa using this
          have hfalse := hp b (List.mem_cons_self b bs)
          rw [hb, ha] at hfalse
          cases hfalse
      · exact ih hinf
    · rw [List.dropWhile_cons, if_neg ha]
      exact h

theorem infix_jsTrimList {pat l : List Char}
    (hp : ∀ c ∈ pat, Char.isWhitespace c = false)
    (h : pat <:+: l) : pat <:+: jsTrimList l := by
  unfold jsTrimList
  have h1 := infix_dropWhile_of_forall Char.isWhitespace hp h
  have h2 : pat.reverse <:+: (l.dropWhile Char.isWhitespace).reverse :=
    List.reverse_infix.mpr h1
  have hp2 : ∀ c ∈ pat.reverse, Char.isWhitespace c = false := by
    intro c hc
    exact hp c (List.mem_reverse.mp hc)
  have h3 := infix_dropWhile_of_forall Char.isWhitespace hp2 h2
  have h4 := List.reverse_infix.mpr h3
  simpa using h4

theorem lookup_mem_values (k v : String) (l : List (String × String))
    (h : List.lookup k l = some v) : v ∈ l.map Prod.snd := by
  induction l with
  | nil => cases h
  | cons p t ih =>
    obtain ⟨a, b⟩ := p
    rw [List.lookup] at h
    by_cases hk : (k == a) = true
    · rw [hk] at h
      injection h with h
      subst h
      exact List.mem_cons_self ..
    · rw [Bool.not_eq_true] at hk
      rw [hk] at h
      exact List.mem_cons_of_mem _ (ih h)


/-- Claim C1: on every request to POST /api/chat and every agent outcome,
the response body is exactly a single-field object whose one field is a
string named "output". -/
theorem chat_response_shape (input : Option String) (agent : AgentOutcome) :
    ∃ s : String, (handleChat input agent).body = [("output", s)] := by
  unfold handleChat interpretAgentResult finalFallbackResult
  repeat' split
  all_goals exact ⟨_, rfl⟩

/-- Claim C2: every category string that lowercases-and-trims to
"breakfast", "lunch" or "dinner" is mapped by the menu lookup to exactly
the description configured for that key in the menu table. -/
theorem menu_valid_category (s c : String)
    (hc : c = "breakfast" ∨ c = "lunch" ∨ c = "dinner")
    (h : jsTrim (jsToLowerCase s) = c) :
    ∃ d, menus.lookup c = some d ∧ getMenuFunc s = JsValue.str d := by
  rcases hc with rfl | rfl | rfl <;>
    exact ⟨_, rfl, by simp only [getMenuFunc]; rw [h]; rfl⟩

/-- Witness for `menu_valid_category` at the concrete input "  DiNNer ". -/
theorem menu_valid_category_witness :
    ∃ d, menus.lookup "dinner" = some d ∧ getMenuFunc "  DiNNer " = JsValue.str d :=
  menu_valid_category "  DiNNer " "dinner" (Or.inr (Or.inr rfl)) (by decide)

/-- Claim C3: any input whose lowercasing contains "evening" or "snack"
anywhere is mapped by the menu lookup to the same value as "evening". -/
theorem menu_evening_snack_canonical (s : String)
    (h : jsIncludes (jsToLowerCase s) "evening" = true ∨
         jsIncludes (jsToLowerCase s) "snack" = true) :
    getMenuFunc s = getMenuFunc "evening" := by
  have key : jsIncludes (jsTrim (jsToLowerCase s)) "evening" = true ∨
      jsIncludes (jsTrim (jsToLowerCase s)) "snack" = true := by
    rcases h with h | h
    · left
      apply decide_eq_true
      exact infix_jsTrimList (by decide) (of_decide_eq_true h)
    · right
      apply decide_eq_true
      exact infix_jsTrimList (by decide) (of_decide_eq_true h)
  have hcond : (jsIncludes (jsTrim (jsToLowerCase s)) "evening" ||
      jsIncludes (jsTrim (jsToLowerCase s)) "snack") = true := by
    rcases key with k | k <;> simp [k]
  simp only [getMenuFunc]
  rw [hcond]
  rfl

/-- Witness for `menu_evening_snack_canonical` at "EVENING snacks pls". -/
theorem menu_evening_snack_canonical_witness :
    getMenuFunc "EVENING snacks pls" = getMenuFunc "evening" :=
  menu_evening_snack_canonical "EVENING snacks pls" (Or.inl rfl)

/-- Counterexample to claim C4 as stated: "constructor" matches no
configured key and contains neither "evening" nor "snack", yet the bracket
access finds the inherited `Object.prototype.constructor` function, which
is truthy, so the program returns that function and not the fallback
message. -/
theorem constructor_key_not_fallback :
    getMenuFunc "constructor" = JsValue.builtinFunction "constructor" ∧
      getMenuFunc "constructor" ≠ JsValue.str menuFallbackMessage := by
  constructor
  · rfl
  · decide

/-- Claim C4 as amended: an input whose normalization misses every
configured key, contains neither "evening" nor "snack", and is not the name
of a property inherited from `Object.prototype` yields the fallback message
listing the valid categories. -/
theorem menu_unknown_category_fallback (s : String)
    (h1 : menus.lookup (jsTrim (jsToLowerCase s)) = none)
    (h2 : jsIncludes (jsTrim (jsToLowerCase s)) "evening" = false)
    (h3 : jsIncludes (jsTrim (jsToLowerCase s)) "snack" = false)
    (h4 : objectPrototypeGet (jsTrim (jsToLowerCase s)) = JsValue.undefined) :
    getMenuFunc s = JsValue.str menuFallbackMessage := by
  have hm : menusGet (jsTrim (jsToLowerCase s)) = JsValue.undefined := by
    unfold menusGet
    rw [h1]
    exact h4
  simp only [getMenuFunc]
  rw [h2, h3, hm]
  rfl

/-- Witness for `menu_unknown_category_fallback` at "pizza". -/
theorem menu_unknown_category_fallback_witness :
    getMenuFunc "pizza" = JsValue.str menuFallbackMessage :=
  menu_unknown_category_fallback "pizza" rfl rfl rfl rfl

/-- Counterexample to claim C5 as stated: at the category "__proto__" the
bracket access finds the inherited `__proto__` accessor, which yields the
prototype object; it is truthy, so the program returns an object, not a
string. -/
theorem proto_key_not_string :
    getMenuFunc "__proto__" = JsValue.prototypeObject ∧
      isStringValue (getMenuFunc "__proto__") = false := by
  constructor
  · rfl
  · rfl

/-- Claim C5 as amended: on every input whose normalization is not the name
of a property inherited from `Object.prototype`, the tool function returns
a string, and that string is one the program configured: either a menu
description or the fallback message. -/
theorem menu_tool_string_total (s : String)
    (h : objectPrototypeGet (jsTrim (jsToLowerCase s)) = JsValue.undefined) :
    ∃ d, getMenuFunc s = JsValue.str d ∧
      (d = menuFallbackMessage ∨ d ∈ menus.map Prod.snd) := by
  simp only [getMenuFunc]
  by_cases hcond : (jsIncludes (jsTrim (jsToLowerCase s)) "evening" ||
      jsIncludes (jsTrim (jsToLowerCase s)) "snack") = true
  · rw [hcond, if_pos rfl]
    exact ⟨"Samosa, Chutney, Tea, Biscuits", rfl, Or.inr (by decide)⟩
  · rw [Bool.not_eq_true] at hcond
    rw [hcond, if_neg (by simp)]
    cases hl : menus.lookup (jsTrim (jsToLowerCase s)) with
    | none =>
      have hm : menusGet (jsTrim (jsToLowerCase s)) = JsValue.undefined := by
        unfold menusGet
        rw [hl]
        exact h
      rw [hm]
      exact ⟨menuFallbackMessage, rfl, Or.inl rfl⟩
    | some v =>
      have hm : menusGet (jsTrim (jsToLowerCase s)) = JsValue.str v := by
        unfold menusGet
        rw [hl]
      rw [hm]
      by_cases hv : (v == "") = true
      · refine ⟨menuFallbackMessage, ?_, Or.inl rfl⟩
        simp [jsOrValue, jsTruthyValue, hv]
      · refine ⟨v, ?_, Or.inr (lookup_mem_values _ v menus hl)⟩
        simp [jsOrValue, jsTruthyValue, hv]

/-- Witness for `menu_tool_string_total` at the concrete input "  LUNCH ". -/
theorem menu_tool_string_total_witness :
    ∃ d, getMenuFunc "  LUNCH " = JsValue.str d ∧
      (d = menuFallbackMessage ∨ d ∈ menus.map Prod.snd) :=
  menu_tool_string_total "  LUNCH " (by decide)

/-- Claim C6: a missing or blank input is rejected with 400 and the fixed
validation message, identically for every agent behaviour and with the
agent executor never invoked. -/
theorem invalid_input_rejected (input : Option String) (agent : AgentOutcome)
    (h : isInvalidInput input = true) :
    handleChat input agent = ⟨400, [("output", invalidInputMessage)], false, none⟩ := by
  unfold handleChat
  rw [h, if_pos rfl]

/-- Witness for `invalid_input_rejected` at the blank input "   ". -/
theorem invalid_input_rejected_witness :
    handleChat (some "   ") (.err "outage") =
      ⟨400, [("output", invalidInputMessage)], false, none⟩ :=
  invalid_input_rejected (some "   ") (.err "outage") (by decide)

/-- Claim C7: when the executor throws on a non-blank input, the response is
500 with exactly the fixed generic retry message (independent of the thrown
error, so no detail of it reaches the body) and the error is logged. -/
theorem upstream_error_generic (s e : String)
    (h : isInvalidInput (some s) = false) :
    handleChat (some s) (.err e) =
      ⟨500, [("output", upstreamErrorMessage)], true, some e⟩ := by
  unfold handleChat
  rw [h, if_neg (by simp)]

/-- Witness for `upstream_error_generic` at a concrete input and error. -/
theorem upstream_error_generic_witness :
    handleChat (some "hi") (.err "ECONNREFUSED api.upstream.example") =
      ⟨500, [("output", upstreamErrorMessage)], true,
        some "ECONNREFUSED api.upstream.example"⟩ :=
  upstream_error_generic "hi" "ECONNREFUSED api.upstream.example" (by decide)

/-- Counterexample to claim C8 as stated: the agent result
`{output: "", intermediateSteps: absent}` has its output field present, and
the empty string does not contain the sentinel, yet the handler answers 500
with the could-not-process message, not 200 with that output. -/
theorem empty_output_not_primary_success :
    (handleChat (some "hi") (.ok ⟨some "", none⟩)).status = 500 ∧
      (handleChat (some "hi") (.ok ⟨some "", none⟩)).body ≠ [("output", "")] := by
  constructor
  · rfl
  · decide

/-- Claim C8 as amended: for every agent result whose output is present and
non-empty and does not contain the sentinel substring, the handler responds
200 with that output, whatever the intermediate steps are. -/
theorem primary_success_path (input : Option String) (out : String)
    (steps : Option (List AgentStep))
    (hv : isInvalidInput input = false)
    (hne : (out == "") = false)
    (hsent : jsIncludes out maxIterationsSentinel = false) :
    handleChat input (.ok ⟨some out, steps⟩) =
      ⟨200, [("output", out)], true, none⟩ := by
  unfold handleChat
  rw [hv, if_neg (by simp)]
  unfold interpretAgentResult
  simp only [jsTruthy, Option.getD_some, hne, hsent]
  rw [if_pos (by simp)]

/-- Witness for `primary_success_path` at a concrete request. -/
theorem primary_success_path_witness :
    handleChat (some "hi")
        (.ok ⟨some "Biryani, Raita, Papad, Salad", some [⟨some "x"⟩]⟩) =
      ⟨200, [("output", "Biryani, Raita, Papad, Salad")], true, none⟩ :=
  primary_success_path (some "hi") "Biryani, Raita, Papad, Salad"
    (some [⟨some "x"⟩]) (by decide) (by decide) (by decide)

/-- Counterexample to claim C9 as stated: the result
`{output: absent, intermediateSteps: [{observation: ""}]}` fails the primary
condition, has a non-empty step list whose last element has an observation
field present, yet the handler answers 500, not 200 with that observation. -/
theorem empty_observation_not_fallback_success :
    (handleChat (some "hi") (.ok ⟨none, some [⟨some ""⟩]⟩)).status = 500 ∧
      (handleChat (some "hi") (.ok ⟨none, some [⟨some ""⟩]⟩)).body ≠ [("output", "")] := by
  constructor
  · rfl
  · decide

/-- Claim C9 as amended: when the primary success condition fails,
intermediateSteps is non-empty and its last step carries a non-empty
observation, the handler responds 200 with that observation. -/
theorem fallback_observation_path (input : Option String) (r : AgentResult)
    (steps : List AgentStep) (lastStep : AgentStep) (obs : String)
    (hv : isInvalidInput input = false)
    (hprimary : (jsTruthy r.output &&
      !(jsIncludes (r.output.getD "") maxIterationsSentinel)) = false)
    (hsteps : r.intermediateSteps = some steps)
    (hlast : steps.getLast? = some lastStep)
    (hobs : lastStep.observation = some obs)
    (hne : (obs == "") = false) :
    handleChat input (.ok r) = ⟨200, [("output", obs)], true, none⟩ := by
  obtain ⟨o, is⟩ := r
  simp only at hprimary hsteps
  subst hsteps
  obtain ⟨ys, rfl⟩ := List.getLast?_eq_some_iff.mp hlast
  obtain ⟨ob⟩ := lastStep
  simp only at hobs
  subst hobs
  have htruthy : jsTruthy (some obs) = true := by
    simp [jsTruthy, hne]
  simp [handleChat, interpretAgentResult, hv, hprimary, htruthy, List.getLast?_concat]

/-- Witness for `fallback_observation_path` at the spec's own example: a
max-iterations output with one recorded observation. -/
theorem fallback_observation_path_witness :
    handleChat (some "evening menu?")
        (.ok ⟨some "agent stopped due to max iterations",
              some [⟨some "Samosa, Chutney, Tea, Biscuits"⟩]⟩) =
      ⟨200, [("output", "Samosa, Chutney, Tea, Biscuits")], true, none⟩ :=
  fallback_observation_path (some "evening menu?")
    ⟨some "agent stopped due to max iterations",
      some [⟨some "Samosa, Chutney, Tea, Biscuits"⟩]⟩
    [⟨some "Samosa, Chutney, Tea, Biscuits"⟩]
    ⟨some "Samosa, Chutney, Tea, Biscuits"⟩
    "Samosa, Chutney, Tea, Biscuits"
    (by decide) (by decide) rfl rfl rfl (by decide)

/-- Claim C10: an empty-string output is treated like an absent one: if the
output is the empty string and the last intermediate step (when there is
one) has an absent or empty observation, the handler falls through to the
500 could-not-process response. -/
theorem empty_output_falls_through (input : Option String)
    (steps : Option (List AgentStep))
    (hv : isInvalidInput input = false)
    (hobs : ∀ st, (steps.getD []).getLast? = some st →
      st.observation = none ∨ st.observation = some "") :
    handleChat input (.ok ⟨some "", steps⟩) =
      ⟨500, [("output", couldNotProcessMessage)], true, none⟩ := by
  unfold handleChat
  rw [hv, if_neg (by simp)]
  show interpretAgentResult ⟨some "", steps⟩ = _
  cases steps with
  | none => rfl
  | some l =>
    cases hl : l.getLast? with
    | none =>
      have hnil : l = [] := List.getLast?_eq_none_iff.mp hl
      subst hnil
      rfl
    | some st =>
      obtain ⟨ys, rfl⟩ := List.getLast?_eq_some_iff.mp hl
      obtain ⟨ob⟩ := st
      have hfalsy : jsTruthy ob = false := by
        rcases hobs ⟨ob⟩ (by simp) with h | h <;>
          simp only at h <;> simp [jsTruthy, h]
      have h1 : jsTruthy (some "") = false := by simp [jsTruthy]
      simp [interpretAgentResult, h1, hfalsy, List.getLast?_concat, finalFallbackResult]

/-- Witness for `empty_output_falls_through`: empty output and one step with
an absent observation. -/
theorem empty_output_falls_through_witness :
    handleChat (some "hello") (.ok ⟨some "", some [⟨none⟩]⟩) =
      ⟨500, [("output", couldNotProcessMessage)], true, none⟩ :=
  empty_output_falls_through (some "hello") (some [⟨none⟩]) (by decide)
    (by intro st h; simp at h; subst h; left; rfl)

end ChatServer
